import Mathlib

/-!
Verification development for the utility layer `Utils.cpp` of the android-nn-driver
repository: the 4-d tensor swizzle front end, the operand-descriptor translation,
the tensor dump writer and the network-graph export.

File-system and logging effects are made explicit as data: a `Bool` records whether
a file open succeeded, what would be written to the file is returned as a value, and
`ALOGW` warnings are returned as a list of strings.  Machine integers are modelled
as `Nat`; the dump writer's element counter `e` is a C++ `unsigned int`, and its
truncated `Nat` subtraction coincides with the C++ behaviour whenever no underflow
occurs (which holds for every non-degenerate shape considered below).
-/

namespace ArmnnDriver

/-- The armnn element data types (the armnn `DataType` enum of this era of the
    library: `Float16 = 0`, `Float32 = 1`, `QuantisedAsymm8 = 2`, `Signed32 = 3`). -/
inductive DataType where
  | Float16
  | Float32
  | QuantisedAsymm8
  | Signed32
deriving DecidableEq

/-- `static_cast<unsigned int>` applied to an armnn `DataType` value. -/
def DataType.toCode : DataType → Nat
  | .Float16 => 0
  | .Float32 => 1
  | .QuantisedAsymm8 => 2
  | .Signed32 => 3

/-! ## Permutation engine (armnnUtils), modelled from the spec

`armnnUtils::Permuted` and `armnnUtils::Permute` live in the armnn library, not in
`src/`; only their caller `SwizzleAndroidNn4dTensorToArmNn` is in this repository.
They are modelled from the spec (§3, §4.1): a permutation vector's entry `i` gives
the source axis that supplies destination axis `i`; the destination shape is
`destinationShape[i] = sourceShape[permutationVector[i]]`; every source element is
copied to the destination multi-index obtained by permuting its coordinate tuple the
same way the axes were permuted, with multi-indices converted to flat row-major
offsets. -/

/-- Row-major flat offset of multi-index `coord` in a tensor of shape `shape`
    (the last axis varies fastest). -/
def flatten : List Nat → List Nat → Nat
  | _, [] => 0
  | [], _ :: _ => 0
  | _ :: ss, c :: cs => c * ss.prod + flatten ss cs

/-- The multi-index of flat row-major offset `n` in a tensor of shape `shape`. -/
def unflatten : List Nat → Nat → List Nat
  | [], _ => []
  | _ :: ss, n => n / ss.prod :: unflatten ss (n % ss.prod)

/-- Modelled from the spec: `armnnUtils::Permuted` (armnn library code missing from
    `src/`).  Applies a permutation vector to an axis-indexed tuple:
    `result[i] = xs[mappings[i]]`.  The spec uses the same reindexing for the shape
    and for coordinate tuples. -/
def Permuted (mappings xs : List Nat) : List Nat :=
  mappings.map fun i => xs.getD i 0

/-- The inverse of a permutation vector: entry `k` is the destination axis fed by
    source axis `k`, i.e. the position of `k` inside `mappings`. -/
def invPerm (mappings : List Nat) : List Nat :=
  (List.range mappings.length).map fun k => mappings.indexOf k

/-- Modelled from the spec: `armnnUtils::Permute` (armnn library code missing from
    `src/`).  Gather form of the spec's scatter loop: the destination element at flat
    offset `j` is the source element whose coordinate tuple maps onto the destination
    multi-index of `j`; since `destCoord = Permuted mappings srcCoord`, that source
    tuple is `Permuted (invPerm mappings) destCoord`. -/
def Permute (shape mappings : List Nat) (src : List α) (d : α) : List α :=
  (List.range (Permuted mappings shape).prod).map fun j =>
    src.getD (flatten shape (Permuted (invPerm mappings) (unflatten (Permuted mappings shape) j))) d

/-- `ALOGW` text at `src/Utils.cpp` line 56. -/
def swizzleUnknownTypeMsg : String :=
  "Unknown armnn::DataType for swizzling"

/-- Failure message standing for the `assert(tensor.GetNumDimensions() == 4U)`
    at `src/Utils.cpp` line 45. -/
def swizzleRankAssertMsg : String :=
  "assert: tensor.GetNumDimensions() == 4U"

/-- `SwizzleAndroidNn4dTensorToArmNn` (`src/Utils.cpp` lines 42-59): asserts rank 4,
    then dispatches on the element type; `Float32` and `QuantisedAsymm8` run the typed
    permuted copy, and any other type hits the `default` branch, which logs
    "Unknown armnn::DataType for swizzling" and asserts — modelled as an error with
    no output written. -/
def SwizzleAndroidNn4dTensorToArmNn (dtype : DataType) (shape mappings : List Nat)
    (input : List α) (d : α) : Except String (List α) :=
  if shape.length ≠ 4 then .error swizzleRankAssertMsg
  else
    match dtype with
    | .Float32 => .ok (Permute shape mappings input d)
    | .QuantisedAsymm8 => .ok (Permute shape mappings input d)
    | _ => .error swizzleUnknownTypeMsg

/-! ## Operand descriptor translation -/

/-- The NeuralNetworks HAL `OperandType` enum. -/
inductive OperandType where
  | FLOAT32
  | INT32
  | UINT32
  | TENSOR_FLOAT32
  | TENSOR_INT32
  | TENSOR_QUANT8_ASYMM
  | OEM
  | TENSOR_OEM_BYTE
deriving DecidableEq

/-- A HAL operand descriptor: external type, dimension list, quantization data. -/
structure Operand where
  type : OperandType
  dimensions : List Nat
  scale : ℚ
  zeroPoint : Int
deriving DecidableEq

/-- An armnn tensor descriptor as produced by `GetTensorInfoForOperand`. -/
structure TensorInfo where
  dimensions : List Nat
  dataType : DataType
  quantizationScale : ℚ
  quantizationOffset : Int
deriving DecidableEq

/-- `GetTensorInfoForOperand` (`src/Utils.cpp` lines 81-106): maps the three
    recognised tensor operand types to armnn data types and builds the descriptor;
    any other operand type throws `UnsupportedOperand(operand.type)`, modelled as an
    error carrying the offending operand type. -/
def GetTensorInfoForOperand (operand : Operand) : Except OperandType TensorInfo :=
  match operand.type with
  | .TENSOR_FLOAT32 =>
      .ok ⟨operand.dimensions, .Float32, operand.scale, operand.zeroPoint⟩
  | .TENSOR_QUANT8_ASYMM =>
      .ok ⟨operand.dimensions, .QuantisedAsymm8, operand.scale, operand.zeroPoint⟩
  | .TENSOR_INT32 =>
      .ok ⟨operand.dimensions, .Signed32, operand.scale, operand.zeroPoint⟩
  | t => .error t

/-! ## Tensor dump writer -/

/-- Modelled from the spec: `armnn::TensorShape::GetNumElements` (armnn library code
    missing from `src/`); spec §3 invariant: product of dimensions equals element
    count (armnn computes it as a running product over the dimension array). -/
def GetNumElements (shape : List Nat) : Nat :=
  shape.foldl (· * ·) 1

/-- `MemoryLayoutString` (`src/Utils.cpp` lines 158-171), keyed on the rank. -/
def MemoryLayoutString (numDimensions : Nat) : String :=
  match numDimensions with
  | 4 => "(BHWC) "
  | 3 => "(HWC) "
  | 2 => "(HW) "
  | _ => ""

/-- Innermost `DumpTensor` loop (`src/Utils.cpp` line 255):
    `for (w = 0; w < width; w++, e += channels)` dumps element index `e` each
    iteration.  The first argument is the number of remaining iterations; returns the
    dumped indices of the row and the final value of `e`. -/
def rowLoop (channels : Nat) : Nat → Nat → List Nat × Nat
  | 0, e => ([], e)
  | w + 1, e =>
      let rest := rowLoop channels w (e + channels)
      (e :: rest.1, rest.2)

/-- Height loop of `DumpTensor` (lines 253-260): one `rowLoop` per row. -/
def heightLoop (channels width : Nat) : Nat → Nat → List (List Nat) × Nat
  | 0, e => ([], e)
  | h + 1, e =>
      let row := rowLoop channels width e
      let rest := heightLoop channels width h row.2
      (row.1 :: rest.1, rest.2)

/-- Channel loop of `DumpTensor` (lines 247-266).  After the height/width loops the
    counter is rewound exactly as in the source:
    `e -= channels - 1;` then `if (c < channels) { e -= ((height * width) - 1) * channels; }`.
    The first `Nat` argument is the number of remaining iterations and the second the
    current value of the loop counter `c` (so the `if` guard is written literally). -/
def channelLoop (channels height width : Nat) : Nat → Nat → Nat → List (List (List Nat)) × Nat
  | 0, _, e => ([], e)
  | k + 1, c, e =>
      let grid := heightLoop channels width height e
      let e1 := grid.2 - (channels - 1)
      let e2 := if c < channels then e1 - ((height * width - 1) * channels) else e1
      let rest := channelLoop channels height width k (c + 1) e2
      (grid.1 :: rest.1, rest.2)

/-- Batch loop of `DumpTensor` (lines 241-268): one full channel loop per batch, the
    counter `e` flowing through. -/
def batchLoop (channels height width : Nat) : Nat → Nat → List (List (List (List Nat))) × Nat
  | 0, e => ([], e)
  | k + 1, e =>
      let chans := channelLoop channels height width channels 0 e
      let rest := batchLoop channels height width k chans.2
      (chans.1 :: rest.1, rest.2)

/-- An armnn `ConstTensor` as seen by the dump writer: shape, element type tag, and
    the buffer decoded at the element type (`α` is the decoded element type). -/
structure ConstTensor (α : Type) where
  shape : List Nat
  dtype : DataType
  data : List α

/-- The element types for which `DumpTensor` (lines 193-214) selects a dump element
    function; all others leave `dumpElementFunction == nullptr`. -/
def supportedDumpType : DataType → Bool
  | .Float32 => true
  | .QuantisedAsymm8 => true
  | .Signed32 => true
  | _ => false

/-- What a `DumpTensor` call writes to its file. -/
inductive DumpResult (α : Type) where
  | openFailed
  | unsupported (code : Nat)
  | dumped (numElements : Nat) (layout : String) (shape : List Nat)
      (blocks : List (List (List (List α))))
deriving DecidableEq

/-- `ALOGW` text at `src/Utils.cpp` line 187. -/
def dumpOpenFailMsg : String :=
  "Could not open file for writing"

/-- The single diagnostic line written at `src/Utils.cpp` lines 273-274. -/
def dumpUnsupportedLine (code : Nat) : String :=
  "Cannot dump tensor elements: Unsupported data type " ++ toString code

/-- `DumpTensor` (`src/Utils.cpp` lines 174-281), with the file-system effects made
    explicit: `openOk` says whether `fileStream.open` left the stream good; the
    returned `DumpResult` is the file content and the `List String` the `ALOGW`
    warnings.  The batch/height/width/channels extraction and the element walk follow
    the source literally; each dumped element index is looked up in the decoded
    buffer (`d` is the out-of-range default, never hit for well-formed tensors). -/
def DumpTensor (openOk : Bool) (t : ConstTensor α) (d : α) :
    DumpResult α × List String :=
  if !openOk then (.openFailed, [dumpOpenFailMsg])
  else if supportedDumpType t.dtype then
    let numDimensions := t.shape.length
    let batch := if numDimensions = 4 then t.shape.getD (numDimensions - 4) 0 else 1
    let height :=
      if 3 ≤ numDimensions then t.shape.getD (numDimensions - 3) 0
      else if 2 ≤ numDimensions then t.shape.getD (numDimensions - 2) 0
      else 1
    let width :=
      if 3 ≤ numDimensions then t.shape.getD (numDimensions - 2) 0
      else if 1 ≤ numDimensions then t.shape.getD (numDimensions - 1) 0
      else 0
    let channels := if 3 ≤ numDimensions then t.shape.getD (numDimensions - 1) 0 else 1
    let idx := (batchLoop channels height width batch 0).1
    (.dumped (GetNumElements t.shape) (MemoryLayoutString numDimensions) t.shape
      (idx.map fun bb => bb.map fun cc => cc.map fun hh => hh.map fun e => t.data.getD e d),
     [])
  else
    (.unsupported t.dtype.toCode, [])

/-- The element count in the dump header, when a header was written. -/
def DumpResult.headerCount : DumpResult α → Option Nat
  | .dumped n _ _ _ => some n
  | _ => none

/-- The diagnostic lines of a dump (nonempty only for the unsupported-type case). -/
def DumpResult.diagnosticLines : DumpResult α → List String
  | .unsupported code => [dumpUnsupportedLine code]
  | _ => []

/-- All element rows written by a dump, across all batch and channel blocks. -/
def DumpResult.elementRows : DumpResult α → List (List α)
  | .dumped _ _ _ blocks => blocks.flatten.flatten
  | _ => []

/-- The value printed at grid position (batch `b`, channel `c`, row `h`, column `w`). -/
def DumpResult.valueAt (r : DumpResult α) (d : α) (b c h w : Nat) : α :=
  match r with
  | .dumped _ _ _ blocks => (((blocks.getD b []).getD c []).getD h []).getD w d
  | _ => d

/-- The flat buffer index dumped at grid position (batch `b`, channel `c`, row `h`,
    column `w`) by the element walk of `DumpTensor` for a rank-4 tensor of the given
    extents. -/
def dumpIndexAt (batch channels height width b c h w : Nat) : Nat :=
  (((((batchLoop channels height width batch 0).1.getD b []).getD c []).getD h []).getD w 0)

/-- `DumpTensorElement<uint8_t, uint32_t>` (`src/Utils.cpp` lines 151-156, selected
    at lines 200-204 for `QuantisedAsymm8`) applied to one byte value `v < 256`: the
    byte is widened by `static_cast<uint32_t>` (value-preserving, modelled by the
    explicit `% 2 ^ 32`) and streamed in decimal, followed by a comma. -/
def DumpTensorElementQAsymm8 (v : Nat) : String :=
  Nat.repr (v % 2 ^ 32) ++ ","

/-! ## Network graph export -/

/-- The observable file-system outcome of `ExportNetworkGraphToDotFile`. -/
inductive ExportResult where
  | noAction
  | openFailedWarn (fileName : String)
  | written (fileName dot : String)
  | writeFailedWarn (fileName : String)
deriving DecidableEq

/-- `ExportNetworkGraphToDotFile` (`src/Utils.cpp` lines 283-320), effects made
    explicit: `modelAddressHexString` is the hex rendering of the model's address,
    `openOk` whether the file open left the stream good, and `serializeToDot` the
    outcome of `optimizedNetwork.SerializeToDot` (armnn library code): `some dot` on
    `Status::Success` with the serialized text, `none` otherwise.  An empty dump
    directory returns before any file name is even formed. -/
def ExportNetworkGraphToDotFile (dumpDir modelAddressHexString : String)
    (openOk : Bool) (serializeToDot : Option String) : ExportResult :=
  if dumpDir = "" then .noAction
  else
    let fileName := dumpDir ++ "/networkgraph_" ++ modelAddressHexString ++ ".dot"
    if !openOk then .openFailedWarn fileName
    else
      match serializeToDot with
      | some dot => .written fileName dot
      | none => .writeFailedWarn fileName

/-- The empty string, i.e. the `dumpDir.empty()` case of the graph export. -/
def emptyString : String := ""

/-! ## Claim theorems -/

/-- C10: `ExportNetworkGraphToDotFile`, invoked with an empty dump-directory string,
    returns immediately without opening, creating, truncating, or writing any file,
    for every model address, file-open outcome and serialization outcome. -/
theorem C10_export_empty_dir_no_action (modelAddressHexString : String)
    (openOk : Bool) (serializeToDot : Option String) :
    ExportNetworkGraphToDotFile emptyString modelAddressHexString openOk serializeToDot =
      ExportResult.noAction := rfl

/-- C7: whenever the output file cannot be opened, `DumpTensor` logs the
    "Could not open file" warning, writes no tensor output (no header, no element
    rows, no diagnostic line), and returns normally, for every tensor. -/
theorem C7_dump_open_failure {α : Type} (t : ConstTensor α) (d : α) :
    DumpTensor false t d = (DumpResult.openFailed, [dumpOpenFailMsg]) ∧
    (DumpTensor false t d).1.elementRows = [] ∧
    (DumpTensor false t d).1.headerCount = none ∧
    (DumpTensor false t d).1.diagnosticLines = [] :=
  ⟨rfl, rfl, rfl, rfl⟩

/-- C2: dumping the float32 tensor of shape [1,2,2,3] holding sequential values
    0..11 row-major writes a header reporting 12 elements and the "(BHWC) " layout,
    followed by one batch block of 3 channel blocks, each a 2x2 grid: channel 0 is
    [[0,3],[6,9]], channel 1 is [[1,4],[7,10]], channel 2 is [[2,5],[8,11]]. -/
theorem C2_dump_shape1223_example :
    (DumpTensor true
        (ConstTensor.mk [1, 2, 2, 3] DataType.Float32 ((List.range 12).map fun n => (n : ℚ)))
        0).1 =
      DumpResult.dumped 12 (MemoryLayoutString 4) [1, 2, 2, 3]
        [[[[0, 3], [6, 9]], [[1, 4], [7, 10]], [[2, 5], [8, 11]]]] := by
  decide

/-- C6: for every nonempty tensor whose element type is outside the supported set,
    `DumpTensor` writes exactly one diagnostic line naming the numeric type code,
    writes no element rows and no header, and returns normally (no warnings, no
    exception). -/
theorem C6_dump_unsupported_type {α : Type} (t : ConstTensor α) (d : α)
    (hs : supportedDumpType t.dtype = false) (hne : t.data ≠ []) :
    (DumpTensor true t d).1 = DumpResult.unsupported t.dtype.toCode ∧
    (DumpTensor true t d).1.diagnosticLines = [dumpUnsupportedLine t.dtype.toCode] ∧
    (DumpTensor true t d).1.elementRows = [] ∧
    (DumpTensor true t d).1.headerCount = none ∧
    (DumpTensor true t d).2 = [] := by
  have h1 : (DumpTensor true t d) = (DumpResult.unsupported t.dtype.toCode, []) := by
    simp [DumpTensor, hs]
  refine ⟨by rw [h1], by rw [h1]; rfl, by rw [h1]; rfl, by rw [h1]; rfl, by rw [h1]⟩

/-- Witness for C6 at a concrete nonempty Float16 tensor. -/
theorem C6_dump_unsupported_type_witness :
    (DumpTensor true (ConstTensor.mk [1] DataType.Float16 [(7 : ℚ)]) 0).1 =
      DumpResult.unsupported DataType.Float16.toCode ∧
    (DumpTensor true (ConstTensor.mk [1] DataType.Float16 [(7 : ℚ)]) 0).1.diagnosticLines =
      [dumpUnsupportedLine DataType.Float16.toCode] ∧
    (DumpTensor true (ConstTensor.mk [1] DataType.Float16 [(7 : ℚ)]) 0).1.elementRows = [] ∧
    (DumpTensor true (ConstTensor.mk [1] DataType.Float16 [(7 : ℚ)]) 0).1.headerCount = none ∧
    (DumpTensor true (ConstTensor.mk [1] DataType.Float16 [(7 : ℚ)]) 0).2 = [] :=
  C6_dump_unsupported_type _ _ (by decide) (by decide)

/-- C8: for every tensor of a supported element type, the element count written in
    the dump header equals the product of the tensor's dimension sizes. -/
theorem C8_dump_header_element_count {α : Type} (t : ConstTensor α) (d : α)
    (hs : supportedDumpType t.dtype = true) :
    (DumpTensor true t d).1.headerCount = some t.shape.prod := by
  simp only [DumpTensor, Bool.not_true, Bool.false_eq_true, if_false, hs, if_true]
  simp only [DumpResult.headerCount, GetNumElements, Option.some.injEq]
  exact (List.prod_eq_foldl).symm

/-- Witness for C8 at a concrete rank-2 Signed32 tensor of shape [2,3]. -/
theorem C8_dump_header_element_count_witness :
    (DumpTensor true (ConstTensor.mk [2, 3] DataType.Signed32
        [(0 : Int), 1, 2, 3, 4, 5]) 0).1.headerCount = some ((6 : Nat)) := by
  have h := C8_dump_header_element_count
    (ConstTensor.mk [2, 3] DataType.Signed32 [(0 : Int), 1, 2, 3, 4, 5]) 0 (by decide)
  rw [h]; decide

/-- C1 (refuted; the code is at fault): the claim says the element printed at grid
    position (b, c, h, w) is the buffer element at flat offset
    `((b * height + h) * width + w) * channels + c`.  For the rank-4 shape
    [2,2,2,2] and grid position (b,c,h,w) = (1,0,0,0) the claimed offset is 8, but
    the stepping counter of `DumpTensor` only advances by `channels` per batch, so
    the code dumps the element at flat offset 2 (value 2, not 8). -/
theorem C1_dump_offset_claim_fails :
    dumpIndexAt 2 2 2 2 1 0 0 0 = 2 ∧
    ((1 * 2 + 0) * 2 + 0) * 2 + 0 = 8 ∧
    (DumpTensor true (ConstTensor.mk [2, 2, 2, 2] DataType.Float32
        ((List.range 16).map fun n => (n : ℚ))) 0).1.valueAt 0 1 0 0 0 = 2 ∧
    ((List.range 16).map fun n => (n : ℚ)).getD (((1 * 2 + 0) * 2 + 0) * 2 + 0) 0 = 8 ∧
    (2 : ℚ) ≠ 8 := by
  refine ⟨by decide, by decide, by decide, by decide, by decide⟩

/-- C9: `GetTensorInfoForOperand` succeeds exactly on the three recognised tensor
    operand types, mapping them to the corresponding armnn data types and copying
    dimensions and quantization data; every other operand type raises the distinct
    unsupported-operand error carrying the offending type, with no descriptor
    returned. -/
theorem C9_operand_translation (operand : Operand) :
    ((∃ ti, GetTensorInfoForOperand operand = Except.ok ti) ↔
      (operand.type = OperandType.TENSOR_FLOAT32 ∨
        operand.type = OperandType.TENSOR_QUANT8_ASYMM ∨
        operand.type = OperandType.TENSOR_INT32)) ∧
    (¬(operand.type = OperandType.TENSOR_FLOAT32 ∨
        operand.type = OperandType.TENSOR_QUANT8_ASYMM ∨
        operand.type = OperandType.TENSOR_INT32) →
      GetTensorInfoForOperand operand = Except.error operand.type) ∧
    (operand.type = OperandType.TENSOR_FLOAT32 →
      GetTensorInfoForOperand operand =
        Except.ok ⟨operand.dimensions, DataType.Float32, operand.scale, operand.zeroPoint⟩) ∧
    (operand.type = OperandType.TENSOR_QUANT8_ASYMM →
      GetTensorInfoForOperand operand =
        Except.ok ⟨operand.dimensions, DataType.QuantisedAsymm8, operand.scale,
          operand.zeroPoint⟩) ∧
    (operand.type = OperandType.TENSOR_INT32 →
      GetTensorInfoForOperand operand =
        Except.ok ⟨operand.dimensions, DataType.Signed32, operand.scale,
          operand.zeroPoint⟩) := by
  obtain ⟨ty, dims, sc, zp⟩ := operand
  cases ty <;> simp [GetTensorInfoForOperand]

/-- Witness for C9: the OEM operand type propagates as an unsupported-operand
    error. -/
theorem C9_operand_translation_witness :
    GetTensorInfoForOperand (Operand.mk OperandType.OEM [2, 2] 0 0) =
      Except.error OperandType.OEM :=
  (C9_operand_translation (Operand.mk OperandType.OEM [2, 2] 0 0)).2.1 (by decide)

set_option maxRecDepth 10000 in
/-- Every byte value below 256 renders through `Nat.repr` as a nonempty string of
    decimal digit characters. -/
theorem byteRepr_digits : ∀ v < 256, (Nat.repr v).data ≠ [] ∧
    ∀ ch ∈ (Nat.repr v).data, ch.isDigit = true := by decide

/-- C5: for every element value in [0,255] of an 8-bit unsigned asymmetric quantized
    tensor, the dump element writer prints the value as a widened unsigned decimal
    integer — a nonempty run of digit characters, never a raw byte or character
    code — followed by a comma separator. -/
theorem C5_quant8_element_prints_decimal (v : Nat) (hv : v ≤ 255) :
    DumpTensorElementQAsymm8 v = Nat.repr v ++ "," ∧
    (Nat.repr v).data ≠ [] ∧
    ∀ ch ∈ (Nat.repr v).data, ch.isDigit = true := by
  have h256 : v < 256 := Nat.lt_succ_of_le hv
  refine ⟨?_, (byteRepr_digits v h256).1, (byteRepr_digits v h256).2⟩
  unfold DumpTensorElementQAsymm8
  rw [Nat.mod_eq_of_lt (lt_trans h256 (by norm_num))]

/-- Witness for C5 at the byte value 161. -/
theorem C5_quant8_element_prints_decimal_witness :
    DumpTensorElementQAsymm8 161 = Nat.repr 161 ++ "," ∧
    (Nat.repr 161).data ≠ [] :=
  ⟨(C5_quant8_element_prints_decimal 161 (by decide)).1,
   (C5_quant8_element_prints_decimal 161 (by decide)).2.1⟩

/-- C3 counterexample: `Signed32` lies inside the claim's supported set
    {Float32, QuantisedAsymm8, Signed32}, yet `SwizzleAndroidNn4dTensorToArmNn`
    reports the unsupported-type error for it on a rank-4 tensor and performs no
    copy. -/
theorem C3_signed32_swizzle_unsupported :
    SwizzleAndroidNn4dTensorToArmNn DataType.Signed32 [1, 1, 1, 1] [0, 1, 2, 3]
        [(5 : ℚ)] 0 = Except.error swizzleUnknownTypeMsg := rfl

/-- C3 amended: for rank-4 tensors `SwizzleAndroidNn4dTensorToArmNn` reports the
    unsupported-element-type error (and performs no copy) if and only if the tensor's
    element type tag lies outside the closed set {32-bit float, 8-bit unsigned
    asymmetric quantized integer} — in particular `Signed32` is also rejected — and
    for every tag inside that set it performs the permuted element copy. -/
theorem C3_amended_swizzle_supported_set {α : Type} (dtype : DataType)
    (shape mappings : List Nat) (input : List α) (d : α) (hrank : shape.length = 4) :
    (SwizzleAndroidNn4dTensorToArmNn dtype shape mappings input d =
        Except.error swizzleUnknownTypeMsg ↔
      (dtype ≠ DataType.Float32 ∧ dtype ≠ DataType.QuantisedAsymm8)) ∧
    ((dtype = DataType.Float32 ∨ dtype = DataType.QuantisedAsymm8) →
      SwizzleAndroidNn4dTensorToArmNn dtype shape mappings input d =
        Except.ok (Permute shape mappings input d)) := by
  cases dtype <;> simp [SwizzleAndroidNn4dTensorToArmNn, hrank]

/-- Witness for C3's amended statement: the Float32 identity swizzle of a one-element
    rank-4 tensor copies the element. -/
theorem C3_amended_swizzle_supported_set_witness :
    SwizzleAndroidNn4dTensorToArmNn DataType.Float32 [1, 1, 1, 1] [0, 1, 2, 3]
        [(5 : ℚ)] 0 = Except.ok [(5 : ℚ)] := by
  have h := (C3_amended_swizzle_supported_set DataType.Float32 [1, 1, 1, 1] [0, 1, 2, 3]
      [(5 : ℚ)] 0 (by decide)).2 (Or.inl rfl)
  rw [h]
  rfl

/-! ## Permutation round-trip (C4) -/

/-- A shape every coordinate of which is pointwise exceeded has positive product. -/
theorem prod_pos_of_valid {coord shape : List Nat}
    (h : List.Forall₂ (· < ·) coord shape) : 0 < shape.prod := by
  induction h with
  | nil => simp
  | @cons c s cs ss hcs hrest ih =>
      rw [List.prod_cons]
      exact Nat.mul_pos (Nat.lt_of_le_of_lt (Nat.zero_le c) hcs) ih

/-- The flat offset of a valid coordinate tuple is below the shape's product. -/
theorem flatten_lt_prod {coord shape : List Nat}
    (h : List.Forall₂ (· < ·) coord shape) : flatten shape coord < shape.prod := by
  induction h with
  | nil => simp [flatten]
  | @cons c s cs ss hcs hrest ih =>
      show c * ss.prod + flatten ss cs < (s :: ss).prod
      rw [List.prod_cons]
      calc c * ss.prod + flatten ss cs < c * ss.prod + ss.prod := by
            exact Nat.add_lt_add_left ih _
        _ = (c + 1) * ss.prod := by ring
        _ ≤ s * ss.prod := Nat.mul_le_mul_right _ hcs

/-- `unflatten` recovers a valid coordinate tuple from its flat offset. -/
theorem unflatten_flatten {coord shape : List Nat}
    (h : List.Forall₂ (· < ·) coord shape) :
    unflatten shape (flatten shape coord) = coord := by
  induction h with
  | nil => rfl
  | @cons c s cs ss hcs hrest ih =>
      have hP : 0 < ss.prod := prod_pos_of_valid hrest
      have hr : flatten ss cs < ss.prod := flatten_lt_prod hrest
      show (c * ss.prod + flatten ss cs) / ss.prod ::
          unflatten ss ((c * ss.prod + flatten ss cs) % ss.prod) = c :: cs
      rw [Nat.mul_comm c ss.prod, Nat.mul_add_div hP, Nat.div_eq_of_lt hr, Nat.add_zero,
        Nat.mul_add_mod, Nat.mod_eq_of_lt hr, ih]

/-- The coordinate tuple of any in-range flat offset is valid for the shape. -/
theorem unflatten_valid : ∀ (shape : List Nat) (j : Nat), j < shape.prod →
    List.Forall₂ (· < ·) (unflatten shape j) shape
  | [], j, hj => by
      simp only [List.prod_nil, Nat.lt_one_iff] at hj
      exact List.Forall₂.nil
  | s :: ss, j, hj => by
      rw [List.prod_cons] at hj
      have hP : 0 < ss.prod := by
        rcases Nat.eq_zero_or_pos ss.prod with h0 | h0
        · rw [h0, Nat.mul_zero] at hj; omega
        · exact h0
      exact List.Forall₂.cons ((Nat.div_lt_iff_lt_mul hP).mpr hj)
        (unflatten_valid ss (j % ss.prod) (Nat.mod_lt _ hP))

/-- `flatten` recovers the flat offset from its coordinate tuple. -/
theorem flatten_unflatten : ∀ (shape : List Nat) (j : Nat), j < shape.prod →
    flatten shape (unflatten shape j) = j
  | [], j, hj => by
      simp only [List.prod_nil, Nat.lt_one_iff] at hj
      simp [flatten, unflatten, hj]
  | s :: ss, j, hj => by
      rw [List.prod_cons] at hj
      have hP : 0 < ss.prod := by
        rcases Nat.eq_zero_or_pos ss.prod with h0 | h0
        · rw [h0, Nat.mul_zero] at hj; omega
        · exact h0
      show j / ss.prod * ss.prod + flatten ss (unflatten ss (j % ss.prod)) = j
      rw [flatten_unflatten ss (j % ss.prod) (Nat.mod_lt _ hP), Nat.div_add_mod']

theorem unflatten_length (shape : List Nat) (j : Nat) :
    (unflatten shape j).length = shape.length := by
  induction shape generalizing j with
  | nil => rfl
  | cons s ss ih => simp [unflatten, ih]

theorem Permuted_length (mappings xs : List Nat) :
    (Permuted mappings xs).length = mappings.length := by
  simp [Permuted]

theorem invPerm_length (mappings : List Nat) :
    (invPerm mappings).length = mappings.length := by
  simp [invPerm]

theorem Permuted_getElem (mappings xs : List Nat) (i : Nat)
    (h1 : i < (Permuted mappings xs).length) (h2 : i < mappings.length) :
    (Permuted mappings xs)[i] = xs.getD mappings[i] 0 := by
  simp [Permuted]

theorem invPerm_getElem (mappings : List Nat) (k : Nat)
    (h : k < (invPerm mappings).length) :
    (invPerm mappings)[k] = mappings.indexOf k := by
  simp [invPerm]

section PermFacts

variable {P : List Nat} {n : Nat}

/-- A permutation vector over `{0,...,n-1}`: same multiset as `List.range n`. -/
theorem perm_length (hP : P.Perm (List.range n)) : P.length = n := by
  simpa using hP.length_eq

theorem perm_mem (hP : P.Perm (List.range n)) (k : Nat) : k ∈ P ↔ k < n := by
  rw [hP.mem_iff, List.mem_range]

theorem perm_nodup (hP : P.Perm (List.range n)) : P.Nodup :=
  hP.nodup_iff.mpr (List.nodup_range _)

theorem perm_getElem_lt (hP : P.Perm (List.range n)) (i : Nat) (h : i < P.length) :
    P[i] < n :=
  (perm_mem hP _).mp (List.getElem_mem h)

/-- The entry of a list at the index of a member is that member. -/
theorem getElem_indexOf_self (Q : List Nat) (k : Nat) (h : Q.indexOf k < Q.length) :
    Q[Q.indexOf k] = k :=
  List.getElem_indexOf h

/-- `P.indexOf P[i] = i`. -/
theorem perm_indexOf_getElem (hP : P.Perm (List.range n)) (i : Nat) (h : i < P.length) :
    P.indexOf P[i] = i :=
  List.indexOf_getElem (perm_nodup hP) i h

/-- Applying the inverse permutation after the permutation restores any tuple of
    length `n`. -/
theorem Permuted_invPerm_Permuted (hP : P.Perm (List.range n)) (xs : List Nat)
    (hxs : xs.length = n) : Permuted (invPerm P) (Permuted P xs) = xs := by
  have hPlen : P.length = n := perm_length hP
  apply List.ext_getElem
  · simp [Permuted_length, invPerm_length, hPlen, hxs]
  · intro k h1 h2
    have hk : k < n := by simpa [Permuted_length, invPerm_length, hPlen] using h1
    rw [Permuted_getElem _ _ _ h1 (by rw [invPerm_length, hPlen]; exact hk), invPerm_getElem]
    have hkP : k ∈ P := (perm_mem hP k).mpr hk
    have hiltP : P.indexOf k < P.length := List.indexOf_lt_length.mpr hkP
    have hilt : P.indexOf k < (Permuted P xs).length := by
      rw [Permuted_length]
      exact hiltP
    rw [List.getD_eq_getElem _ 0 hilt, Permuted_getElem _ _ _ hilt hiltP,
      getElem_indexOf_self P k hiltP,
      List.getD_eq_getElem _ 0 (by rw [hxs]; exact hk)]

/-- The inverse permutation vector has no duplicate entries. -/
theorem invPerm_nodup (hP : P.Perm (List.range n)) : (invPerm P).Nodup := by
  rw [List.nodup_iff_injective_get]
  intro i j hij
  have hn : (invPerm P).length = n := by rw [invPerm_length, perm_length hP]
  have hi : (i : Nat) < n := by rw [← hn]; exact i.isLt
  have hj : (j : Nat) < n := by rw [← hn]; exact j.isLt
  have hvi : (invPerm P).get i = P.indexOf (i : Nat) := by
    simp only [List.get_eq_getElem]; rw [invPerm_getElem]
  have hvj : (invPerm P).get j = P.indexOf (j : Nat) := by
    simp only [List.get_eq_getElem]; rw [invPerm_getElem]
  rw [hvi, hvj] at hij
  exact Fin.ext ((List.indexOf_inj ((perm_mem hP _).mpr hi) ((perm_mem hP _).mpr hj)).mp hij)

/-- Inverting the inverse permutation vector gives back the permutation vector. -/
theorem invPerm_invPerm (hP : P.Perm (List.range n)) : invPerm (invPerm P) = P := by
  have hPlen : P.length = n := perm_length hP
  apply List.ext_getElem
  · rw [invPerm_length, invPerm_length]
  · intro i h1 h2
    have hiP : i < P.length := h2
    have hi : i < n := by rw [← hPlen]; exact hiP
    rw [invPerm_getElem _ i (by simpa [invPerm_length] using h1)]
    have hPi : P[i] < n := perm_getElem_lt hP i hiP
    have hQPi : P[i] < (invPerm P).length := by rw [invPerm_length, hPlen]; exact hPi
    have hval : (invPerm P)[P[i]] = i := by
      rw [invPerm_getElem]
      exact perm_indexOf_getElem hP i hiP
    have := List.indexOf_getElem (invPerm_nodup hP) P[i] hQPi
    rw [hval] at this
    exact this

end PermFacts

/-- Pointwise validity of coordinates is preserved by applying a permutation vector
    to both the coordinate tuple and the shape. -/
theorem permuted_valid {coord shape P : List Nat}
    (hP : P.Perm (List.range shape.length))
    (hv : List.Forall₂ (· < ·) coord shape) :
    List.Forall₂ (· < ·) (Permuted P coord) (Permuted P shape) := by
  have hlen : coord.length = shape.length := hv.length_eq
  rw [List.forall₂_iff_get]
  refine ⟨by simp [Permuted_length], ?_⟩
  intro i h1 h2
  have hiP : i < P.length := by simpa [Permuted_length] using h1
  have hPi : P[i] < shape.length := perm_getElem_lt hP i hiP
  simp only [List.get_eq_getElem]
  rw [Permuted_getElem _ _ _ h1 hiP, Permuted_getElem _ _ _ h2 hiP]
  rw [List.getD_eq_getElem _ 0 (by rw [hlen]; exact hPi), List.getD_eq_getElem _ 0 hPi]
  exact (List.forall₂_iff_get.mp hv).2 P[i] _ _

theorem Permute_length (shape mappings : List Nat) (src : List α) (d : α) :
    (Permute shape mappings src d).length = (Permuted mappings shape).prod := by
  simp [Permute]

theorem Permute_getElem (shape mappings : List Nat) (src : List α) (d : α) (j : Nat)
    (h : j < (Permute shape mappings src d).length) :
    (Permute shape mappings src d)[j] =
      src.getD (flatten shape (Permuted (invPerm mappings)
        (unflatten (Permuted mappings shape) j))) d := by
  simp [Permute]

/-- C4: permuting a tensor by a permutation vector `P` that is a bijection over the
    tensor's rank and then permuting the result by the inverse permutation of `P`
    yields a tensor with exactly the original shape and the original element
    contents (round-trip law). -/
theorem C4_permute_roundtrip {α : Type} (shape P : List Nat) (src : List α) (d : α)
    (hP : P.Perm (List.range shape.length)) (hlen : src.length = shape.prod) :
    Permuted (invPerm P) (Permuted P shape) = shape ∧
    Permute (Permuted P shape) (invPerm P) (Permute shape P src d) d = src := by
  have hshape : Permuted (invPerm P) (Permuted P shape) = shape :=
    Permuted_invPerm_Permuted hP shape rfl
  have hinv : invPerm (invPerm P) = P := invPerm_invPerm hP
  refine ⟨hshape, ?_⟩
  apply List.ext_getElem
  · rw [Permute_length, hshape, hlen]
  · intro j h1 h2
    have hj : j < shape.prod := by rw [Permute_length, hshape] at h1; exact h1
    rw [Permute_getElem _ _ _ _ j h1, hshape, hinv]
    have hcv : List.Forall₂ (· < ·) (unflatten shape j) shape := unflatten_valid shape j hj
    have hcv' : List.Forall₂ (· < ·) (Permuted P (unflatten shape j)) (Permuted P shape) :=
      permuted_valid hP hcv
    have hj' : flatten (Permuted P shape) (Permuted P (unflatten shape j)) <
        (Permuted P shape).prod := flatten_lt_prod hcv'
    rw [List.getD_eq_getElem _ d (by rw [Permute_length]; exact hj')]
    rw [Permute_getElem]
    rw [unflatten_flatten hcv']
    rw [Permuted_invPerm_Permuted hP _ hcv.length_eq]
    rw [flatten_unflatten shape j hj]
    exact List.getD_eq_getElem src d (by rw [hlen]; exact hj)

/-- Witness for C4: the transpose permutation on a [2,3] float tensor and back. -/
theorem C4_permute_roundtrip_witness :
    Permuted (invPerm [1, 0]) (Permuted [1, 0] [2, 3]) = [2, 3] ∧
    Permute (Permuted [1, 0] [2, 3]) (invPerm [1, 0])
        (Permute [2, 3] [1, 0] [(0 : ℚ), 1, 2, 3, 4, 5] 0) 0 =
      [(0 : ℚ), 1, 2, 3, 4, 5] :=
  C4_permute_roundtrip [2, 3] [1, 0] [(0 : ℚ), 1, 2, 3, 4, 5] 0 (by decide) (by decide)

end ArmnnDriver
